import Mathlib

/-!
Verification of the free web-search retriever of gpt-researcher.

Shallow embedding of:
  - src/free_web_retriever.py  (FreeWebSearchRetriever: rate limiter,
    three engine adapters, fallback orchestrator, search_web helper)
  - src/gpt_researcher/retrievers/custom/custom.py  (CustomRetriever: the
    compatibility shim with pipeline-shape normalization)

Modelling conventions:
  - Python exceptions raised by an engine adapter are `Except.error msg`.
  - Wall-clock time is modelled by the rationals; `time.sleep(d)` is
    modelled as advancing the clock by exactly `d`.
  - HTML result nodes are modelled structurally: an element carries its
    (already extracted) text and an optional `href` attribute; a result
    node carries the optional sub-elements the adapter's selectors look
    for (`find` returning `None` is `Option.none`).
  - A Python `dict` record `{href, body}` is the structure
    `PipelineRecord`; the truthiness test `result.get('k')` on a string
    field is `≠ ""`.
-/

namespace GptResearcher

/-- A raw search hit as produced by an engine adapter:
`{'title': ..., 'url': ..., 'snippet': ...}`. -/
structure RawResult where
  title : String
  url : String
  snippet : String
deriving DecidableEq, Repr

/-- A pipeline-shape record `{'href': ..., 'body': ...}` as produced by
`CustomRetriever.search`. -/
structure PipelineRecord where
  href : String
  body : String
deriving DecidableEq, Repr

/-- Outcome of invoking one engine adapter: either a list of raw results
or a raised exception (carrying its message). -/
abbrev AdapterResult := Except String (List RawResult)

/-- The three engines, in the fixed priority order of
`FreeWebSearchRetriever.search`'s `methods` list. -/
inductive Engine where
  | duckduckgo
  | bing
  | startpage
deriving DecidableEq, Repr

/-- The `for method in methods` loop of `FreeWebSearchRetriever.search`
(src/free_web_retriever.py lines 56-66): try each (engine, outcome) pair in
order; on an exception, record the engine and continue; on a non-empty
result list, return it at once; if the list is exhausted, return `[]`.
The second component records which engines were invoked. -/
def runMethods : List (Engine × AdapterResult) → List RawResult × List Engine
  | [] => ([], [])
  | (e, Except.error _) :: rest =>
      let r := runMethods rest
      (r.1, e :: r.2)
  | (e, Except.ok rs) :: rest =>
      if rs.isEmpty then
        let r := runMethods rest
        (r.1, e :: r.2)
      else (rs, [e])

/-- The mutable per-instance state set up by
`FreeWebSearchRetriever.__init__`: `self.last_request_time = 0` and
`self.min_delay = 2`. -/
structure RetrieverState where
  last_request_time : ℚ
  min_delay : ℚ
deriving DecidableEq, Repr

/-- A freshly constructed `FreeWebSearchRetriever()`. -/
def initState : RetrieverState :=
  { last_request_time := 0, min_delay := 2 }

/-- The `time.sleep` duration of the rate-limiting block at
src/free_web_retriever.py lines 43-45: sleep
`min_delay - (current_time - last_request_time)` when
`current_time - last_request_time < min_delay`, otherwise do not sleep. -/
def rateLimitSleep (st : RetrieverState) (now : ℚ) : ℚ :=
  if now - st.last_request_time < st.min_delay then
    st.min_delay - (now - st.last_request_time)
  else 0

/-- The wall-clock time once the rate-limiting block has finished, i.e.
the value of `time.time()` at line 47 (the clock advances exactly by the
slept duration). -/
def afterWait (st : RetrieverState) (now : ℚ) : ℚ :=
  now + rateLimitSleep st now

/-- The three engine adapters as query-and-limit functions, so the
orchestrator can be analysed for arbitrary network behaviour. -/
structure Adapters where
  duckduckgo : String → Nat → AdapterResult
  bing : String → Nat → AdapterResult
  startpage : String → Nat → AdapterResult

/-- Everything observable about one `FreeWebSearchRetriever.search` call:
the returned list, the engines invoked, the time at which the first
outbound engine request is issued (right after the rate-limit wait), and
the instance state afterwards. -/
structure SearchOutcome where
  results : List RawResult
  tried : List Engine
  requestTime : ℚ
  finalState : RetrieverState
deriving Repr

/-- `FreeWebSearchRetriever.search` (src/free_web_retriever.py lines
30-66): one rate-limit wait, record the new `last_request_time`, then try
the methods `[_search_duckduckgo, _search_bing, _search_startpage]` in
that order. -/
def FreeWebSearchRetriever.search (st : RetrieverState) (now : ℚ) (a : Adapters)
    (query : String) (maxResults : Nat) : SearchOutcome :=
  let t := afterWait st now
  let r := runMethods
    [(Engine.duckduckgo, a.duckduckgo query maxResults),
     (Engine.bing, a.bing query maxResults),
     (Engine.startpage, a.startpage query maxResults)]
  { results := r.1
    tried := r.2
    requestTime := t
    finalState := { st with last_request_time := t } }

/-- `search_web` (src/free_web_retriever.py lines 151-156): constructs a
brand-new `FreeWebSearchRetriever()` and calls its `search`, so every
call starts from `initState`. -/
def search_web (now : ℚ) (a : Adapters) (query : String) (maxResults : Nat) :
    SearchOutcome :=
  FreeWebSearchRetriever.search initState now a query maxResults

/-- An HTML element as the adapters consume it: its text content and its
optional `href` attribute (`tag.get('href', '')` when absent yields `""`). -/
structure Element where
  text : String
  href : Option String
deriving DecidableEq, Repr

/-- A DuckDuckGo `div.result` (or StartPage `div.w-gl__result`) node: the
optional title link (`a.result__a` / `a.w-gl__result-title`) and the
optional snippet element (`a.result__snippet` / `p.w-gl__description`). -/
structure ResultNode where
  titleLink : Option Element
  snippetElem : Option Element
deriving DecidableEq, Repr

/-- The body of the DuckDuckGo result loop (src/free_web_retriever.py
lines 79-91): if `title_link` is absent the node yields no record;
otherwise title is its stripped text, url is `get('href', '')` and
snippet is the stripped snippet text or `''` when the snippet element is
absent. -/
def parseDDGNode (nd : ResultNode) : Option RawResult :=
  match nd.titleLink with
  | none => none
  | some tl =>
      some { title := tl.text.trim
             url := tl.href.getD ""
             snippet := match nd.snippetElem with
               | some s => s.text.trim
               | none => "" }

/-- `FreeWebSearchRetriever._search_duckduckgo` applied to an
already-fetched page, abstracted as the list of `div.result` nodes in
document order: slice to `max_results` nodes, then keep the parses. -/
def searchDuckDuckGo (nodes : List ResultNode) (maxResults : Nat) : List RawResult :=
  (nodes.take maxResults).filterMap parseDDGNode

/-- A Bing `h2` title element: its text and the optional `a` inside it. -/
structure H2Element where
  text : String
  anchor : Option Element
deriving DecidableEq, Repr

/-- A Bing `li.b_algo` node: the optional `h2` and the optional `p`
snippet element. -/
structure BingNode where
  h2 : Option H2Element
  p : Option Element
deriving DecidableEq, Repr

/-- The body of the Bing result loop (src/free_web_retriever.py lines
106-119): `url_a = title_h2.find('a') if title_h2 else None`; if `url_a`
is absent the node yields no record; otherwise title is the stripped `h2`
text, url is `url_a.get('href', '')`, snippet as for DuckDuckGo. -/
def parseBingNode (nd : BingNode) : Option RawResult :=
  match nd.h2 with
  | none => none
  | some h =>
      match h.anchor with
      | none => none
      | some a =>
          some { title := h.text.trim
                 url := a.href.getD ""
                 snippet := match nd.p with
                   | some s => s.text.trim
                   | none => "" }

/-- `FreeWebSearchRetriever._search_bing` on an already-fetched page. -/
def searchBing (nodes : List BingNode) (maxResults : Nat) : List RawResult :=
  (nodes.take maxResults).filterMap parseBingNode

/-- The body of the StartPage result loop (src/free_web_retriever.py
lines 134-146), selector-for-selector the same shape as DuckDuckGo. -/
def parseStartPageNode (nd : ResultNode) : Option RawResult :=
  match nd.titleLink with
  | none => none
  | some tl =>
      some { title := tl.text.trim
             url := tl.href.getD ""
             snippet := match nd.snippetElem with
               | some s => s.text.trim
               | none => "" }

/-- `FreeWebSearchRetriever._search_startpage` on an already-fetched page. -/
def searchStartPage (nodes : List ResultNode) (maxResults : Nat) : List RawResult :=
  (nodes.take maxResults).filterMap parseStartPageNode

/-- One formatted entry of `CustomRetriever.search`
(src/gpt_researcher/retrievers/custom/custom.py lines 88-91):
`{'href': result['url'], 'body': f"{title}\n\n{snippet}"}`. -/
def formatResult (r : RawResult) : PipelineRecord :=
  { href := r.url, body := r.title ++ "\n\n" ++ r.snippet }

/-- The formatting loop of `CustomRetriever.search` (custom.py lines
85-94): keep a result only when title, url and snippet are all truthy
(non-empty), and map it to its pipeline record. -/
def formatResults : List RawResult → List PipelineRecord
  | [] => []
  | r :: rest =>
      if r.title ≠ "" ∧ r.url ≠ "" ∧ r.snippet ≠ "" then
        formatResult r :: formatResults rest
      else formatResults rest

/-- Outcome of the fallback-endpoint request of `CustomRetriever.search`
(custom.py lines 107-113): either a parsed JSON payload (kept opaque) or
a raised `requests.RequestException`. -/
inductive FallbackOutcome where
  | success : String → FallbackOutcome
  | requestError : String → FallbackOutcome
deriving DecidableEq, Repr

/-- The value `CustomRetriever.search` returns: a list of pipeline
records, the raw JSON passthrough of the fallback endpoint, or Python
`None`. -/
inductive SearchReturn where
  | records : List PipelineRecord → SearchReturn
  | rawJson : String → SearchReturn
  | noneValue : SearchReturn
deriving DecidableEq, Repr

/-- `CustomRetriever.search` (custom.py lines 57-113). `available` is
`self.available`; `freeSearch` is the outcome of
`self.free_retriever.search(...)` (an `Except.error` models any exception
raised inside the free retrieval pipeline, caught by the
`except Exception` at line 101); `fallback` is the outcome of the
endpoint request in the unavailable branch. -/
def CustomRetriever.search (available : Bool)
    (freeSearch : Except String (List RawResult))
    (fallback : FallbackOutcome) : SearchReturn :=
  if available then
    match freeSearch with
    | Except.ok results =>
        if results.isEmpty then SearchReturn.records []
        else SearchReturn.records (formatResults results)
    | Except.error _ => SearchReturn.records []
  else
    match fallback with
    | FallbackOutcome.success j => SearchReturn.rawJson j
    | FallbackOutcome.requestError _ => SearchReturn.noneValue

/-- Adapters that all return an empty result list. -/
def emptyAdapters : Adapters :=
  { duckduckgo := fun _ _ => Except.ok []
    bing := fun _ _ => Except.ok []
    startpage := fun _ _ => Except.ok [] }

/-- Adapters that all raise a connection error. -/
def errorAdapters : Adapters :=
  { duckduckgo := fun _ _ => Except.error "ConnectionError"
    bing := fun _ _ => Except.error "ConnectionError"
    startpage := fun _ _ => Except.error "ConnectionError" }

/-- An adapter outcome that triggers fallback to the next engine: a
raised exception or an empty result list. -/
def failsOrEmpty : AdapterResult → Prop
  | Except.error _ => True
  | Except.ok rs => rs = []

/-! ## Helper lemmas -/

/-- Every record emitted by the formatting loop comes from an input raw
result whose three fields are all non-empty. -/
theorem mem_formatResults {p : PipelineRecord} :
    ∀ {rs : List RawResult}, p ∈ formatResults rs →
      ∃ r, r ∈ rs ∧ r.title ≠ "" ∧ r.url ≠ "" ∧ r.snippet ≠ "" ∧ p = formatResult r := by
  intro rs h
  induction rs with
  | nil => simp [formatResults] at h
  | cons r rest ih =>
      simp only [formatResults] at h
      split at h
      · rename_i hc
        rcases List.mem_cons.mp h with h1 | h2
        · exact ⟨r, List.mem_cons_self r rest, hc.1, hc.2.1, hc.2.2, h1⟩
        · obtain ⟨r2, hr2, ht, hu, hs, hp⟩ := ih h2
          exact ⟨r2, List.mem_cons_of_mem r hr2, ht, hu, hs, hp⟩
      · obtain ⟨r2, hr2, ht, hu, hs, hp⟩ := ih h
        exact ⟨r2, List.mem_cons_of_mem r hr2, ht, hu, hs, hp⟩

/-- The orchestrator loop returns `[]` or one adapter's own non-empty
`ok` result, exactly as received. -/
theorem runMethods_results (ms : List (Engine × AdapterResult)) :
    (runMethods ms).1 = [] ∨
      ∃ p, p ∈ ms ∧ ∃ rs, p.2 = Except.ok rs ∧ rs ≠ [] ∧ (runMethods ms).1 = rs := by
  induction ms with
  | nil => left; rfl
  | cons pr rest ih =>
      obtain ⟨e, r⟩ := pr
      cases r with
      | error msg =>
          rcases ih with h | ⟨p, hp, rs, hok, hne, hres⟩
          · left; simpa [runMethods] using h
          · right
            exact ⟨p, List.mem_cons_of_mem _ hp, rs, hok, hne, by simpa [runMethods] using hres⟩
      | ok rs =>
          by_cases hrs : rs.isEmpty
          · rcases ih with h | ⟨p, hp, rs2, hok, hne, hres⟩
            · left; simpa [runMethods, hrs] using h
            · right
              exact ⟨p, List.mem_cons_of_mem _ hp, rs2, hok, hne,
                by simpa [runMethods, hrs] using hres⟩
          · right
            refine ⟨(e, Except.ok rs), List.mem_cons_self _ rest, rs, rfl, ?_, ?_⟩
            · intro hnil
              exact hrs (by simp [hnil])
            · simp [runMethods, hrs]

/-- After the rate-limiting block, the clock reads at least
`last_request_time + min_delay`. -/
theorem afterWait_ge (st : RetrieverState) (now : ℚ) :
    st.last_request_time + st.min_delay ≤ afterWait st now := by
  unfold afterWait rateLimitSleep
  split
  · linarith
  · linarith [not_lt.mp (by assumption : ¬ now - st.last_request_time < st.min_delay)]

/-! ## Claim theorems -/

/-- Claim C1: for every raw result with non-empty title `T`, url `U` and
snippet `S`, the pipeline-shape normalization of the shim's `search()`
produces exactly the record `{href: U, body: T ++ "\n\n" ++ S}`, and the
mapping is a (deterministic) function of the raw result's fields. -/
theorem c1_pipeline_shape_normalization (T U S : String)
    (hT : T ≠ "") (hU : U ≠ "") (hS : S ≠ "") (fb : FallbackOutcome) :
    CustomRetriever.search true (Except.ok [⟨T, U, S⟩]) fb
      = SearchReturn.records [⟨U, T ++ "\n\n" ++ S⟩]
    ∧ ∀ r : RawResult, formatResult r = ⟨r.url, r.title ++ "\n\n" ++ r.snippet⟩ := by
  constructor
  · simp [CustomRetriever.search, formatResults, formatResult, hT, hU, hS]
  · intro r; rfl

/-- Witness for C1 at `T = "T"`, `U = "U"`, `S = "S"`. -/
theorem c1_pipeline_shape_normalization_witness :
    CustomRetriever.search true (Except.ok [⟨"T", "U", "S"⟩]) (FallbackOutcome.requestError "e")
      = SearchReturn.records [⟨"U", "T" ++ "\n\n" ++ "S"⟩] :=
  (c1_pipeline_shape_normalization "T" "U" "S" (by decide) (by decide) (by decide)
    (FallbackOutcome.requestError "e")).1

/-- Claim C2: every record in the shim's pipeline-shape output comes from
a raw result whose title, url and snippet are all non-empty — a raw
result with an empty field is silently dropped — and in particular
`[{title: "A", url: "", snippet: "B"}]` normalizes to `[]`. -/
theorem c2_empty_field_dropped :
    (∀ (rs : List RawResult) (fb : FallbackOutcome) (l : List PipelineRecord)
       (p : PipelineRecord),
       CustomRetriever.search true (Except.ok rs) fb = SearchReturn.records l → p ∈ l →
       ∃ r, r ∈ rs ∧ r.title ≠ "" ∧ r.url ≠ "" ∧ r.snippet ≠ "" ∧ p = formatResult r)
    ∧ ∀ fb, CustomRetriever.search true (Except.ok [⟨"A", "", "B"⟩]) fb
        = SearchReturn.records [] := by
  constructor
  · intro rs fb l p hl hp
    by_cases hrs : rs.isEmpty
    · have : l = [] := by
        simp [CustomRetriever.search, hrs] at hl
        exact hl
      subst this
      simp at hp
    · have : l = formatResults rs := by
        simp [CustomRetriever.search, hrs] at hl
        exact hl.symm
      subst this
      exact mem_formatResults hp
  · intro fb
    rfl

/-- Witness for C2's universal part at the singleton well-formed input. -/
theorem c2_empty_field_dropped_witness :
    ∃ r, r ∈ [(⟨"T", "U", "S"⟩ : RawResult)] ∧ r.title ≠ "" ∧ r.url ≠ "" ∧ r.snippet ≠ ""
      ∧ (⟨"U", "T" ++ "\n\n" ++ "S"⟩ : PipelineRecord) = formatResult r :=
  c2_empty_field_dropped.1 [⟨"T", "U", "S"⟩] (FallbackOutcome.requestError "e")
    [⟨"U", "T" ++ "\n\n" ++ "S"⟩] ⟨"U", "T" ++ "\n\n" ++ "S"⟩ rfl (by simp)

/-- Claim C5: with the free retriever available, the shim's `search()`
turns any exception raised inside the retrieval pipeline into `[]`; in
particular, when every engine raises a connection error the shim still
returns the empty record list, and no exception escapes. -/
theorem c5_shim_never_raises (e : String) (fb : FallbackOutcome)
    (st : RetrieverState) (now : ℚ) (a : Adapters) (q : String) (n : Nat)
    (e1 e2 e3 : String)
    (h1 : a.duckduckgo q n = Except.error e1)
    (h2 : a.bing q n = Except.error e2)
    (h3 : a.startpage q n = Except.error e3) :
    CustomRetriever.search true (Except.error e) fb = SearchReturn.records []
    ∧ CustomRetriever.search true
        (Except.ok (FreeWebSearchRetriever.search st now a q n).results) fb
        = SearchReturn.records [] := by
  refine ⟨rfl, ?_⟩
  have hres : (FreeWebSearchRetriever.search st now a q n).results = [] := by
    simp [FreeWebSearchRetriever.search, runMethods, h1, h2, h3]
  rw [hres]
  rfl

/-- Witness for C5: every engine raising `ConnectionError`. -/
theorem c5_shim_never_raises_witness :
    CustomRetriever.search true (Except.error "boom") (FallbackOutcome.requestError "e")
      = SearchReturn.records []
    ∧ CustomRetriever.search true
        (Except.ok (FreeWebSearchRetriever.search initState 0 errorAdapters "q" 5).results)
        (FallbackOutcome.requestError "e") = SearchReturn.records [] :=
  c5_shim_never_raises "boom" (FallbackOutcome.requestError "e") initState 0 errorAdapters
    "q" 5 "ConnectionError" "ConnectionError" "ConnectionError" rfl rfl rfl

/-- Claim C10: when the free retriever is unavailable and the fallback
endpoint request raises a request exception, the shim's `search()`
returns `None`, which is distinct from every (possibly empty) record
list. -/
theorem c10_fallback_returns_none (free : Except String (List RawResult)) (err : String) :
    CustomRetriever.search false free (FallbackOutcome.requestError err)
      = SearchReturn.noneValue
    ∧ ∀ l : List PipelineRecord,
        (SearchReturn.noneValue : SearchReturn) ≠ SearchReturn.records l := by
  refine ⟨rfl, ?_⟩
  intro l h
  cases h

/-- Adapters where only DuckDuckGo yields results. -/
def ddOnlyAdapters : Adapters :=
  { duckduckgo := fun _ _ => Except.ok [⟨"t", "u", "s"⟩]
    bing := fun _ _ => Except.error "unused"
    startpage := fun _ _ => Except.ok [] }

/-- The length of a sliced-then-parsed node list is at most the slice
bound. -/
theorem take_parse_length_le {α β : Type} (f : α → Option β) (nodes : List α) (n : Nat) :
    ((nodes.take n).filterMap f).length ≤ n := by
  calc ((nodes.take n).filterMap f).length
      ≤ (nodes.take n).length := List.length_filterMap_le f _
    _ ≤ n := by
        rw [List.length_take]
        exact min_le_left _ _

/-- Claim C3: the orchestrator tries DuckDuckGo, then Bing, then
StartPage; a raising adapter is recorded among the tried engines and the
next one is invoked; the first adapter returning a non-empty list has
that exact list returned, with no lower-priority adapter invoked and no
merging. -/
theorem c3_first_success_wins (st : RetrieverState) (now : ℚ) (a : Adapters)
    (q : String) (n : Nat) (rs : List RawResult) (hrs : rs ≠ []) :
    (a.duckduckgo q n = Except.ok rs →
      (FreeWebSearchRetriever.search st now a q n).results = rs ∧
      (FreeWebSearchRetriever.search st now a q n).tried = [Engine.duckduckgo]) ∧
    (∀ e1, a.duckduckgo q n = Except.error e1 → a.bing q n = Except.ok rs →
      (FreeWebSearchRetriever.search st now a q n).results = rs ∧
      (FreeWebSearchRetriever.search st now a q n).tried
        = [Engine.duckduckgo, Engine.bing]) ∧
    (∀ e1 e2, a.duckduckgo q n = Except.error e1 → a.bing q n = Except.error e2 →
      a.startpage q n = Except.ok rs →
      (FreeWebSearchRetriever.search st now a q n).results = rs ∧
      (FreeWebSearchRetriever.search st now a q n).tried
        = [Engine.duckduckgo, Engine.bing, Engine.startpage]) := by
  have hempty : rs.isEmpty = false := by
    cases rs with
    | nil => exact absurd rfl hrs
    | cons x xs => rfl
  refine ⟨?_, ?_, ?_⟩
  · intro h1
    constructor <;> simp [FreeWebSearchRetriever.search, runMethods, h1, hempty]
  · intro e1 h1 h2
    constructor <;> simp [FreeWebSearchRetriever.search, runMethods, h1, h2, hempty]
  · intro e1 e2 h1 h2 h3
    constructor <;> simp [FreeWebSearchRetriever.search, runMethods, h1, h2, h3, hempty]

/-- Witness for C3: DuckDuckGo succeeds with one result, and the
orchestrator returns exactly that list having tried only DuckDuckGo. -/
theorem c3_first_success_wins_witness :
    (FreeWebSearchRetriever.search initState 0 ddOnlyAdapters "q" 5).results
        = [⟨"t", "u", "s"⟩]
    ∧ (FreeWebSearchRetriever.search initState 0 ddOnlyAdapters "q" 5).tried
        = [Engine.duckduckgo] :=
  (c3_first_success_wins initState 0 ddOnlyAdapters "q" 5 [⟨"t", "u", "s"⟩]
    (by simp)).1 rfl

/-- Claim C4: when each of the three adapters raises or returns an empty
list, the orchestrator's `search()` returns the empty list (it is a total
function, so no exception propagates). -/
theorem c4_total_failure_empty (st : RetrieverState) (now : ℚ) (a : Adapters)
    (q : String) (n : Nat)
    (h1 : failsOrEmpty (a.duckduckgo q n))
    (h2 : failsOrEmpty (a.bing q n))
    (h3 : failsOrEmpty (a.startpage q n)) :
    (FreeWebSearchRetriever.search st now a q n).results = [] := by
  rcases runMethods_results
      [(Engine.duckduckgo, a.duckduckgo q n), (Engine.bing, a.bing q n),
       (Engine.startpage, a.startpage q n)] with h | ⟨p, hp, rs, hok, hne, hres⟩
  · exact h
  · exfalso
    have contra : ∀ r : AdapterResult, failsOrEmpty r → r = Except.ok rs → False := by
      intro r hf hr
      subst hr
      exact hne hf
    simp only [List.mem_cons, List.not_mem_nil, or_false] at hp
    rcases hp with hp | hp | hp <;> subst hp
    · exact contra _ h1 hok
    · exact contra _ h2 hok
    · exact contra _ h3 hok

/-- Witness for C4: all three engines raise `ConnectionError`. -/
theorem c4_total_failure_empty_witness :
    (FreeWebSearchRetriever.search initState 0 errorAdapters "q" 5).results = [] :=
  c4_total_failure_empty initState 0 errorAdapters "q" 5 trivial trivial trivial

/-- Claim C6: each engine adapter's parse emits at most `max_results`
records, and the orchestrator's result (one adapter's list, or empty)
is therefore also bounded by `max_results`. -/
theorem c6_length_le_max (nodesD nodesS : List ResultNode) (nodesB : List BingNode)
    (st : RetrieverState) (now : ℚ) (a : Adapters) (q : String) (n : Nat)
    (hD : ∀ rs, a.duckduckgo q n = Except.ok rs → rs.length ≤ n)
    (hB : ∀ rs, a.bing q n = Except.ok rs → rs.length ≤ n)
    (hS : ∀ rs, a.startpage q n = Except.ok rs → rs.length ≤ n) :
    (searchDuckDuckGo nodesD n).length ≤ n
    ∧ (searchBing nodesB n).length ≤ n
    ∧ (searchStartPage nodesS n).length ≤ n
    ∧ (FreeWebSearchRetriever.search st now a q n).results.length ≤ n := by
  refine ⟨take_parse_length_le _ _ _, take_parse_length_le _ _ _,
    take_parse_length_le _ _ _, ?_⟩
  rcases runMethods_results
      [(Engine.duckduckgo, a.duckduckgo q n), (Engine.bing, a.bing q n),
       (Engine.startpage, a.startpage q n)] with h | ⟨p, hp, rs, hok, hne, hres⟩
  · have : (FreeWebSearchRetriever.search st now a q n).results = [] := h
    rw [this]
    exact Nat.zero_le n
  · have : (FreeWebSearchRetriever.search st now a q n).results = rs := hres
    rw [this]
    simp only [List.mem_cons, List.not_mem_nil, or_false] at hp
    rcases hp with hp | hp | hp <;> subst hp
    · exact hD rs hok
    · exact hB rs hok
    · exact hS rs hok

/-- Witness for C6 at empty node lists and all-failing adapters. -/
theorem c6_length_le_max_witness :
    (searchDuckDuckGo [] 5).length ≤ 5
    ∧ (searchBing [] 5).length ≤ 5
    ∧ (searchStartPage [] 5).length ≤ 5
    ∧ (FreeWebSearchRetriever.search initState 0 errorAdapters "q" 5).results.length ≤ 5 :=
  c6_length_le_max [] [] [] initState 0 errorAdapters "q" 5
    (fun _ h => Except.noConfusion h) (fun _ h => Except.noConfusion h)
    (fun _ h => Except.noConfusion h)

/-- Claim C7: the rate-limit wait happens exactly once per `search()`
invocation, before the first adapter attempt — the outbound request time
does not depend on the adapters — and when less than `min_delay` has
elapsed since the recorded timestamp, the call blocks until exactly
`last_request_time + min_delay` and records that instant as the new
timestamp; `MIN_DELAY` is 2. -/
theorem c7_rate_limit_once (st : RetrieverState) (now : ℚ) (a a2 : Adapters)
    (q : String) (n : Nat)
    (h : now - st.last_request_time < st.min_delay) :
    (FreeWebSearchRetriever.search st now a q n).requestTime
        = st.last_request_time + st.min_delay
    ∧ (FreeWebSearchRetriever.search st now a q n).finalState.last_request_time
        = (FreeWebSearchRetriever.search st now a q n).requestTime
    ∧ (FreeWebSearchRetriever.search st now a q n).requestTime
        = (FreeWebSearchRetriever.search st now a2 q n).requestTime
    ∧ initState.min_delay = 2 := by
  refine ⟨?_, rfl, rfl, rfl⟩
  show afterWait st now = st.last_request_time + st.min_delay
  unfold afterWait rateLimitSleep
  rw [if_pos h]
  ring

/-- Witness for C7: a fresh retriever called at time 1 (only 1 unit after
the recorded timestamp 0) issues its request at time 2. -/
theorem c7_rate_limit_once_witness :
    (FreeWebSearchRetriever.search initState 1 emptyAdapters "q" 5).requestTime
      = initState.last_request_time + initState.min_delay :=
  (c7_rate_limit_once initState 1 emptyAdapters errorAdapters "q" 5
    (by norm_num [initState])).1

/-- Counterexample to C8: the rate-limiter timestamp is a per-instance
attribute, not process-wide state. `search_web` builds a fresh
`FreeWebSearchRetriever()` per call, so two consecutive `search_web`
calls at times 10 and 10.5 both issue their outbound request without any
blocking — the second request follows the first by only 1/2 < 2 time
units, violating the claimed process-wide minimum spacing. -/
theorem c8_counterexample :
    (search_web 10 emptyAdapters "q" 5).requestTime = 10
    ∧ (search_web (21 / 2) emptyAdapters "q" 5).requestTime = 21 / 2
    ∧ (21 / 2 : ℚ) - 10 < 2
    ∧ (0 : ℚ) < 21 / 2 - 10 := by
  refine ⟨?_, ?_, by norm_num, by norm_num⟩
  · show afterWait initState 10 = 10
    norm_num [afterWait, rateLimitSleep, initState]
  · show afterWait initState (21 / 2) = 21 / 2
    norm_num [afterWait, rateLimitSleep, initState]

/-- Claim C8 (amended): the "last request timestamp" is per
`FreeWebSearchRetriever` instance, so the minimum spacing holds between
successive `search()` calls on one instance — the outbound request time
is at least `last_request_time + min_delay`, and the request time is
recorded as the instance's new timestamp — while `search_web` constructs
a fresh instance per call, whose state starts from `initState`, so no
spacing is enforced across instances or across `search_web` calls. -/
theorem c8_per_instance_spacing (st : RetrieverState) (now : ℚ) (a : Adapters)
    (q : String) (n : Nat) :
    st.last_request_time + st.min_delay
        ≤ (FreeWebSearchRetriever.search st now a q n).requestTime
    ∧ (FreeWebSearchRetriever.search st now a q n).finalState.last_request_time
        = (FreeWebSearchRetriever.search st now a q n).requestTime
    ∧ (search_web now a q n).finalState.last_request_time
        = (FreeWebSearchRetriever.search initState now a q n).finalState.last_request_time :=
  ⟨afterWait_ge st now, rfl, rfl⟩

/-- Counterexample to C9: a DuckDuckGo (resp. Bing, StartPage) result
node whose title element is missing — even with a snippet element
present — emits no record at all, instead of a record whose title field
is the empty string. -/
theorem c9_counterexample :
    searchDuckDuckGo
        [{ titleLink := none, snippetElem := some { text := "a snippet", href := none } }] 10
      = []
    ∧ searchBing [{ h2 := none, p := some { text := "a snippet", href := none } }] 10 = []
    ∧ searchBing
        [{ h2 := some { text := "Title", anchor := none },
           p := some { text := "a snippet", href := none } }] 10 = []
    ∧ searchStartPage
        [{ titleLink := none, snippetElem := some { text := "a snippet", href := none } }] 10
      = [] :=
  ⟨rfl, rfl, rfl, rfl⟩

/-- Claim C9 (amended): for each engine, a node with a present title
element yields a record whose title is the stripped title text, whose url
is the raw `href` attribute (empty string when the attribute is missing)
and whose snippet is the stripped snippet text (empty string when the
snippet element is missing); a node whose title element (DuckDuckGo and
StartPage title link; Bing `h2` or the `a` inside it) is missing is
skipped entirely, emitting no record. -/
theorem c9_field_extraction (t : String) (sn : Option Element) :
    parseDDGNode { titleLink := none, snippetElem := sn } = none
    ∧ parseDDGNode { titleLink := some { text := t, href := none }, snippetElem := none }
        = some { title := t.trim, url := "", snippet := "" }
    ∧ (∀ tl s2 : Element, parseDDGNode { titleLink := some tl, snippetElem := some s2 }
        = some { title := tl.text.trim, url := tl.href.getD "", snippet := s2.text.trim })
    ∧ parseBingNode { h2 := none, p := sn } = none
    ∧ parseBingNode { h2 := some { text := t, anchor := none }, p := sn } = none
    ∧ parseBingNode
        { h2 := some { text := t, anchor := some { text := t, href := none } }, p := none }
        = some { title := t.trim, url := "", snippet := "" }
    ∧ (∀ (h : H2Element) (an s2 : Element),
        parseBingNode { h2 := some { text := h.text, anchor := some an }, p := some s2 }
        = some { title := h.text.trim, url := an.href.getD "", snippet := s2.text.trim })
    ∧ parseStartPageNode { titleLink := none, snippetElem := sn } = none
    ∧ parseStartPageNode { titleLink := some { text := t, href := none }, snippetElem := none }
        = some { title := t.trim, url := "", snippet := "" }
    ∧ (∀ tl s2 : Element, parseStartPageNode { titleLink := some tl, snippetElem := some s2 }
        = some { title := tl.text.trim, url := tl.href.getD "", snippet := s2.text.trim }) :=
  ⟨rfl, rfl, fun _ _ => rfl, rfl, rfl, rfl, fun _ _ _ => rfl, rfl, rfl, fun _ _ => rfl⟩

end GptResearcher
